import Mathlib

/-!
Shallow embedding of the posture-feedback engine of the repository
(`posture_feedback`): the pure angle geometry of `modules/utils.py`,
the per-frame classification, temporal smoothing, shoulder-baseline
calibration, hint cascade and logging of `main.py`'s `run_model`
loop (mirrored by `streamlit_app.py`'s camera loop), and a model of
the spec's ComboScorer (which has no code in the repository).

Pixel coordinates and shoulder heights are embedded as rationals
(the source feeds integer pixels into exact arithmetic expressions);
the elbow angle, which goes through `acos`, is embedded as a real
number.  Python's `deque(maxlen=n)` is embedded as a list of length
at most `n` on which appending at capacity drops the oldest entry.
-/

namespace Posture

/-- `calculate_angle` of `modules/utils.py`: angle at vertex `b` of the
triangle `a b c`, via `degrees(acos(clamp(dot / (|ba|*|bc| + 1e-6), -1, 1)))`.
`math.hypot (x, y)` is `sqrt (x^2 + y^2)` and `math.degrees r` is
`r * 180 / pi`. -/
noncomputable def calculate_angle (a b c : ℝ × ℝ) : ℝ :=
  Real.arccos (max (-1 : ℝ) (min (1 : ℝ)
    (((a.1 - b.1) * (c.1 - b.1) + (a.2 - b.2) * (c.2 - b.2)) /
      (Real.sqrt ((a.1 - b.1) ^ 2 + (a.2 - b.2) ^ 2) *
        Real.sqrt ((c.1 - b.1) ^ 2 + (c.2 - b.2) ^ 2) + 1e-6)))) * 180 / Real.pi

/-- A joint sample for one frame: pixel coordinates of the right
shoulder (landmark 12), elbow (14) and wrist (16), as produced by
`get_landmark_coordinates`. -/
structure JointSample where
  shoulder : ℚ × ℚ
  elbow : ℚ × ℚ
  wrist : ℚ × ℚ

/-- Cast a rational pixel point to the real plane, for the angle call. -/
def toR (p : ℚ × ℚ) : ℝ × ℝ := ((p.1 : ℝ), (p.2 : ℝ))

/-- Elbow angle of a sample: `calculate_angle(shoulder, elbow, wrist)`
(`main.py` line 108, `streamlit_app.py` line 119). -/
noncomputable def angleOf (j : JointSample) : ℝ :=
  calculate_angle (toR j.shoulder) (toR j.elbow) (toR j.wrist)

/-- `deviation = abs(elbow_angle - reference_elbow_angle)` with the
hard-coded reference angle 150 (`main.py` line 109). -/
noncomputable def deviationOf (j : JointSample) : ℝ :=
  |angleOf j - 150|

/-- `posture_correct = deviation <= elbow_angle_threshold` with the
hard-coded threshold 15 (`main.py` line 110). -/
noncomputable def angleCorrectOf (j : JointSample) : Bool :=
  decide (deviationOf j ≤ 15)

/-- `elbow_visibly_above = elbow[1] < shoulder[1]` (`main.py` line 113). -/
def elbowVisiblyAbove (j : JointSample) : Bool :=
  decide (j.elbow.2 < j.shoulder.2)

/-- `elbow_raised = elbow_visibly_above or (elbow_angle < 90)`
(`main.py` lines 113-115 with `use_angle` on). -/
noncomputable def elbowRaisedOf (j : JointSample) : Bool :=
  elbowVisiblyAbove j || decide (angleOf j < 90)

/-- Append to a `deque(maxlen := cap)`: add on the right, dropping the
leftmost entry once the deque is at capacity. -/
def pushFifo (cap : ℕ) (w : List α) (x : α) : List α :=
  if w.length < cap then w ++ [x] else w.tail ++ [x]

/-- `smoothed_status = sum(status_buffer) > len(status_buffer) // 2`
(`main.py` line 120): majority vote over the buffer, with Python's
integer (floor) division. -/
def smoothedOf (w : List Bool) : Bool :=
  decide (w.count true > w.length / 2)

/-- One step of the shoulder logic of `main.py` lines 137-143: push the
shoulder height into the 10-slot FIFO; if the FIFO is full, take its
average, freeze it as the baseline if no baseline exists yet, and report
`lift = baseline - average`; otherwise leave the baseline alone and
report the frame-initial `shoulder_lift = 0`.  Returns
(new FIFO, new baseline, lift). -/
def baselineStep (heights : List ℚ) (baseline : Option ℚ) (h : ℚ) :
    List ℚ × Option ℚ × ℚ :=
  let hs := pushFifo 10 heights h
  if hs.length = 10 then
    let avg := hs.sum / 10
    let b := baseline.getD avg
    (hs, some b, b - avg)
  else
    (hs, baseline, 0)

/-- The four feedback hints of the cascade in `main.py` lines 150-158. -/
inductive Hint where
  | extendArm
  | lowerShoulder
  | stabilizeArm
  | goodPosture
deriving DecidableEq, Repr

/-- The hint cascade (`main.py` lines 151-158, `streamlit_app.py` lines
161-167): wrong angle first, then elevated shoulder, then unstable arm,
else good posture. -/
def hintFor (postureCorrect elevated smoothedStatus : Bool) : Hint :=
  if !postureCorrect then .extendArm
  else if elevated then .lowerShoulder
  else if !smoothedStatus then .stabilizeArm
  else .goodPosture

/-- One CSV row written by `append_log` (`main.py` lines 169-172),
restricted to the engine-relevant columns (frame counter, raw joint
heights, angle data, smoothed status, hint; fps and the phase tag are
wall-clock/constant bookkeeping).  `hint` is `none` when `use_feedback`
is off (the empty string in the source). -/
structure OutputRecord where
  frame : ℕ
  elbowY : ℚ
  shoulderY : ℚ
  angle : ℝ
  referenceAngle : ℝ
  deviation : ℝ
  smoothedStatus : Bool
  hint : Option Hint

/-- The four boolean switches of `run_model`. -/
structure Config where
  useAngle : Bool
  useSmoothing : Bool
  useShoulder : Bool
  useFeedback : Bool

/-- The "final" phase configuration: every switch on. -/
def finalConfig : Config := ⟨true, true, true, true⟩

/-- The mutable state of one `run_model` session: the 5-slot smoothing
buffer, the 10-slot shoulder-height FIFO, the frozen shoulder baseline,
the frame counter, and the log rows written so far. -/
structure EngineState where
  statusBuffer : List Bool
  shoulderHeights : List ℚ
  shoulderBaseline : Option ℚ
  frameCount : ℕ
  log : List OutputRecord

/-- A fresh session (`main.py` lines 82-90). -/
def initState : EngineState :=
  { statusBuffer := [], shoulderHeights := [], shoulderBaseline := none,
    frameCount := 0, log := [] }

/-- `elbow_angle = calculate_angle(...) if use_angle else 0`
(`main.py` line 108). -/
noncomputable def angleCfg (cfg : Config) (j : JointSample) : ℝ :=
  if cfg.useAngle then angleOf j else 0

/-- `deviation = abs(elbow_angle - reference) if use_angle else 0`
(`main.py` line 109). -/
noncomputable def deviationCfg (cfg : Config) (j : JointSample) : ℝ :=
  if cfg.useAngle then deviationOf j else 0

/-- `posture_correct = deviation <= threshold if use_angle else True`
(`main.py` line 110). -/
noncomputable def postureCorrectCfg (cfg : Config) (j : JointSample) : Bool :=
  if cfg.useAngle then angleCorrectOf j else true

/-- `elbow_raised = elbow_visibly_above or elbow_bent_upward`, where
`elbow_bent_upward = elbow_angle < 90 if use_angle else False`
(`main.py` lines 113-115). -/
noncomputable def elbowRaisedCfg (cfg : Config) (j : JointSample) : Bool :=
  elbowVisiblyAbove j || (if cfg.useAngle then decide (angleOf j < 90) else false)

/-- The smoothing buffer after the frame: appended to only when
`use_smoothing` is on (`main.py` lines 118-119). -/
noncomputable def bufferCfg (cfg : Config) (st : EngineState) (j : JointSample) : List Bool :=
  if cfg.useSmoothing then pushFifo 5 st.statusBuffer (elbowRaisedCfg cfg j)
  else st.statusBuffer

/-- `smoothed_status`: majority vote over the updated buffer when
`use_smoothing` is on, the raw `elbow_raised` otherwise
(`main.py` lines 118-122). -/
noncomputable def smoothedCfg (cfg : Config) (st : EngineState) (j : JointSample) : Bool :=
  if cfg.useSmoothing then smoothedOf (bufferCfg cfg st j) else elbowRaisedCfg cfg j

/-- The shoulder FIFO, baseline and `shoulder_lift` after the frame:
one `baselineStep` when `use_shoulder` is on, everything unchanged and
the frame-initial `shoulder_lift = 0` otherwise (`main.py` lines 96,
136-143). -/
def shoulderDataCfg (cfg : Config) (st : EngineState) (j : JointSample) :
    List ℚ × Option ℚ × ℚ :=
  if cfg.useShoulder then baselineStep st.shoulderHeights st.shoulderBaseline j.shoulder.2
  else (st.shoulderHeights, st.shoulderBaseline, 0)

/-- The hint of the frame (`main.py` lines 149-158): the cascade when
`use_feedback` is on (with the elevated test `use_shoulder and
shoulder_lift > 15`), the empty hint otherwise. -/
noncomputable def hintCfg (cfg : Config) (st : EngineState) (j : JointSample) : Option Hint :=
  if cfg.useFeedback then
    some (hintFor (postureCorrectCfg cfg j)
      (cfg.useShoulder && decide ((shoulderDataCfg cfg st j).2.2 > 15))
      (smoothedCfg cfg st j))
  else none

/-- The log row appended for the frame (`main.py` lines 169-172). -/
noncomputable def rowCfg (cfg : Config) (st : EngineState) (j : JointSample) : OutputRecord :=
  { frame := st.frameCount, elbowY := j.elbow.2, shoulderY := j.shoulder.2,
    angle := angleCfg cfg j, referenceAngle := 150,
    deviation := deviationCfg cfg j,
    smoothedStatus := smoothedCfg cfg st j, hint := hintCfg cfg st j }

/-- The body of the `run_model` loop for a frame on which landmarks were
detected (`main.py` lines 101-172), after the frame counter has already
been incremented: classification, optional smoothing, optional shoulder
logic, hint cascade, and one appended log row. -/
noncomputable def processDetected (cfg : Config) (st : EngineState)
    (j : JointSample) : EngineState :=
  { statusBuffer := bufferCfg cfg st j,
    shoulderHeights := (shoulderDataCfg cfg st j).1,
    shoulderBaseline := (shoulderDataCfg cfg st j).2.1,
    frameCount := st.frameCount,
    log := st.log ++ [rowCfg cfg st j] }

/-- One iteration of the `run_model` loop (`main.py` lines 92-172): the
frame counter advances unconditionally; if the detector reports no
landmarks the `if results and results.pose_landmarks` guard skips the
whole analysis block, otherwise the frame is processed. -/
noncomputable def processFrame (cfg : Config) (st : EngineState)
    (det : Option JointSample) : EngineState :=
  match det with
  | none => { st with frameCount := st.frameCount + 1 }
  | some j => processDetected cfg { st with frameCount := st.frameCount + 1 } j

/-- Run the loop over a whole sequence of detector results. -/
noncomputable def processFrames (cfg : Config) (st : EngineState) :
    List (Option JointSample) → EngineState
  | [] => st
  | d :: ds => processFrames cfg (processFrame cfg st d) ds

/-- Modelled from the spec: the repository has no ComboScorer code; §4.6
of the spec defines its state as a streak counter plus an optional
last-qualify timestamp.  Timestamps are rationals (wall-clock seconds
supplied by the caller). -/
structure ComboState where
  streakCount : ℕ
  lastQualifyTime : Option ℚ
deriving DecidableEq, Repr

/-- Modelled from the spec: `combo_threshold_seconds`, default 2.0. -/
def comboThresholdSeconds : ℚ := 2

/-- Modelled from the spec: per-frame combo qualification,
`angle_correct AND smoothed_status AND NOT elevated` (§4.6). -/
def qualifies (angleCorrect smoothedStatus elevated : Bool) : Bool :=
  angleCorrect && smoothedStatus && !elevated

/-- Modelled from the spec: one ComboScorer transition (§4.6).  Idle on a
qualifying frame records the time with streak 0; an active streak
increments once the threshold has elapsed and otherwise stays put; any
non-qualifying frame resets unconditionally to idle. -/
def comboStep (s : ComboState) (qualify : Bool) (now : ℚ) : ComboState :=
  if qualify then
    match s.lastQualifyTime with
    | none => { streakCount := 0, lastQualifyTime := some now }
    | some t =>
        if now - t > comboThresholdSeconds then
          { streakCount := s.streakCount + 1, lastQualifyTime := some now }
        else s
  else { streakCount := 0, lastQualifyTime := none }

/-- Modelled from the spec: run the ComboScorer over a sequence of
(qualify, timestamp) frames. -/
def comboRun (s : ComboState) : List (Bool × ℚ) → ComboState
  | [] => s
  | (q, t) :: rest => comboRun (comboStep s q t) rest

/-- A concrete first-frame joint sample: shoulder (10, 13), elbow
(10, 10), wrist (14, 3).  The elbow is above the shoulder on screen
(smaller y) and the elbow angle is about 150 degrees. -/
def sampleGood : JointSample :=
  { shoulder := (10, 13), elbow := (10, 10), wrist := (14, 3) }

/-- A session state whose shoulder window holds nine samples and whose
baseline is still unset: the next detected frame fills the window. -/
def stNine : EngineState :=
  { statusBuffer := [], shoulderHeights := [20, 21, 20, 19, 20, 21, 20, 19, 20],
    shoulderBaseline := none, frameCount := 9, log := [] }

/-! Helper lemmas shared by the claim theorems. -/

theorem baselineStep_keeps_some (hs : List ℚ) (b h : ℚ) :
    (baselineStep hs (some b) h).2.1 = some b := by
  unfold baselineStep
  by_cases hc : (pushFifo 10 hs h).length = 10 <;> simp [hc]

theorem baselineStep_not_full (hs : List ℚ) (base : Option ℚ) (h : ℚ)
    (hnf : (pushFifo 10 hs h).length ≠ 10) :
    baselineStep hs base h = (pushFifo 10 hs h, base, 0) := by
  unfold baselineStep
  simp only [hnf, if_false]

theorem shoulderDataCfg_baseline (cfg : Config) (st : EngineState) (j : JointSample)
    (b : ℚ) (hb : st.shoulderBaseline = some b) :
    (shoulderDataCfg cfg st j).2.1 = some b := by
  unfold shoulderDataCfg
  cases hc : cfg.useShoulder
  · simpa using hb
  · rw [if_pos rfl, hb, baselineStep_keeps_some]

theorem processFrame_keeps_baseline (cfg : Config) (st : EngineState) (b : ℚ)
    (hb : st.shoulderBaseline = some b) (det : Option JointSample) :
    (processFrame cfg st det).shoulderBaseline = some b := by
  cases det with
  | none => simpa [processFrame] using hb
  | some j =>
      show (shoulderDataCfg cfg { st with frameCount := st.frameCount + 1 } j).2.1 = some b
      exact shoulderDataCfg_baseline _ _ _ _ hb

theorem processFrames_keep_baseline (cfg : Config) (b : ℚ) :
    ∀ (dets : List (Option JointSample)) (st : EngineState),
      st.shoulderBaseline = some b →
      (processFrames cfg st dets).shoulderBaseline = some b
  | [], _, hb => hb
  | d :: ds, st, hb =>
      processFrames_keep_baseline cfg b ds _ (processFrame_keeps_baseline cfg st b hb d)

theorem hintFor_not_elevated (pc sm : Bool) :
    hintFor pc false sm ≠ Hint.lowerShoulder := by
  cases pc <;> cases sm <;> simp [hintFor]

theorem arccos_deg_between {t : ℝ}
    (hlo : -(Real.sqrt (2 + Real.sqrt 2) / 2) ≤ t)
    (hhi : t ≤ -(Real.sqrt 2 / 2)) :
    135 ≤ Real.arccos (max (-1) (min 1 t)) * 180 / Real.pi ∧
      Real.arccos (max (-1) (min 1 t)) * 180 / Real.pi ≤ 165 := by
  have hpi := Real.pi_pos
  have h2a : Real.sqrt 2 * Real.sqrt 2 = 2 := Real.mul_self_sqrt (by norm_num)
  have h2n : (0 : ℝ) ≤ Real.sqrt 2 := Real.sqrt_nonneg 2
  have h2hi : Real.sqrt 2 ≤ 142 / 100 := by nlinarith
  have h2lo : (141 : ℝ) / 100 ≤ Real.sqrt 2 := by nlinarith
  have hsa : Real.sqrt (2 + Real.sqrt 2) * Real.sqrt (2 + Real.sqrt 2) = 2 + Real.sqrt 2 :=
    Real.mul_self_sqrt (by positivity)
  have hsn : (0 : ℝ) ≤ Real.sqrt (2 + Real.sqrt 2) := Real.sqrt_nonneg _
  have hshi : Real.sqrt (2 + Real.sqrt 2) ≤ 2 := by nlinarith
  have ht1 : -1 ≤ t := le_trans (by nlinarith) hlo
  have ht2 : t ≤ 1 := le_trans hhi (by nlinarith)
  have hclamp : max (-1 : ℝ) (min 1 t) = t := by
    rw [min_eq_right ht2, max_eq_right ht1]
  rw [hclamp]
  have hmemt : t ∈ Set.Icc (-1 : ℝ) 1 := Set.mem_Icc.mpr ⟨ht1, ht2⟩
  have hmemA : -(Real.sqrt 2 / 2) ∈ Set.Icc (-1 : ℝ) 1 :=
    Set.mem_Icc.mpr ⟨by nlinarith, by nlinarith⟩
  have hmemB : -(Real.sqrt (2 + Real.sqrt 2) / 2) ∈ Set.Icc (-1 : ℝ) 1 :=
    Set.mem_Icc.mpr ⟨by nlinarith, by nlinarith⟩
  have hA : Real.arccos (-(Real.sqrt 2 / 2)) = 3 * Real.pi / 4 := by
    apply Real.arccos_eq_of_eq_cos (by positivity) (by linarith)
    rw [show 3 * Real.pi / 4 = Real.pi - Real.pi / 4 by ring, Real.cos_pi_sub,
      Real.cos_pi_div_four]
  have hB : Real.arccos (-(Real.sqrt (2 + Real.sqrt 2) / 2)) = 7 * Real.pi / 8 := by
    apply Real.arccos_eq_of_eq_cos (by positivity) (by linarith)
    rw [show 7 * Real.pi / 8 = Real.pi - Real.pi / 8 by ring, Real.cos_pi_sub,
      Real.cos_pi_div_eight]
  have hlow : 3 * Real.pi / 4 ≤ Real.arccos t := by
    rw [← hA]
    exact (Real.strictAntiOn_arccos.le_iff_le hmemA hmemt).mpr hhi
  have hhigh : Real.arccos t ≤ 7 * Real.pi / 8 := by
    rw [← hB]
    exact (Real.strictAntiOn_arccos.le_iff_le hmemt hmemB).mpr hlo
  constructor
  · rw [le_div_iff₀ hpi]
    nlinarith
  · rw [div_le_iff₀ hpi]
    nlinarith

theorem sqrt_nine : Real.sqrt 9 = 3 := by
  rw [show (9 : ℝ) = 3 ^ 2 by norm_num]
  exact Real.sqrt_sq (by norm_num)

theorem sampleGood_quotient_hi :
    (-21 : ℝ) / (3 * Real.sqrt 65 + 1 / 1000000) ≤ -(Real.sqrt 2 / 2) := by
  have h65a : Real.sqrt 65 * Real.sqrt 65 = 65 := Real.mul_self_sqrt (by norm_num)
  have h65n : (0 : ℝ) ≤ Real.sqrt 65 := Real.sqrt_nonneg 65
  have h65hi : Real.sqrt 65 ≤ 81 / 10 := by nlinarith
  have h2a : Real.sqrt 2 * Real.sqrt 2 = 2 := Real.mul_self_sqrt (by norm_num)
  have h2n : (0 : ℝ) ≤ Real.sqrt 2 := Real.sqrt_nonneg 2
  have h2hi : Real.sqrt 2 ≤ 142 / 100 := by nlinarith
  have hD : (0 : ℝ) < 3 * Real.sqrt 65 + 1 / 1000000 := by positivity
  rw [div_le_iff₀ hD]
  nlinarith [mul_le_mul h2hi h65hi h65n (by norm_num : (0 : ℝ) ≤ 142 / 100)]

theorem sampleGood_quotient_lo :
    -(Real.sqrt (2 + Real.sqrt 2) / 2) ≤ (-21 : ℝ) / (3 * Real.sqrt 65 + 1 / 1000000) := by
  have h65a : Real.sqrt 65 * Real.sqrt 65 = 65 := Real.mul_self_sqrt (by norm_num)
  have h65n : (0 : ℝ) ≤ Real.sqrt 65 := Real.sqrt_nonneg 65
  have h65lo : (8 : ℝ) ≤ Real.sqrt 65 := by nlinarith
  have h65hi : Real.sqrt 65 ≤ 81 / 10 := by nlinarith
  have h2a : Real.sqrt 2 * Real.sqrt 2 = 2 := Real.mul_self_sqrt (by norm_num)
  have h2n : (0 : ℝ) ≤ Real.sqrt 2 := Real.sqrt_nonneg 2
  have h2lo : (141 : ℝ) / 100 ≤ Real.sqrt 2 := by nlinarith
  have hsa : Real.sqrt (2 + Real.sqrt 2) * Real.sqrt (2 + Real.sqrt 2) = 2 + Real.sqrt 2 :=
    Real.mul_self_sqrt (by positivity)
  have hsn : (0 : ℝ) ≤ Real.sqrt (2 + Real.sqrt 2) := Real.sqrt_nonneg _
  have hslo : (184 : ℝ) / 100 ≤ Real.sqrt (2 + Real.sqrt 2) := by nlinarith
  have hD : (0 : ℝ) < 3 * Real.sqrt 65 + 1 / 1000000 := by positivity
  rw [le_div_iff₀ hD]
  nlinarith [mul_le_mul hslo h65lo (by norm_num : (0 : ℝ) ≤ 8) hsn]

theorem angle_sampleGood_eq :
    angleOf sampleGood = Real.arccos (max (-1 : ℝ)
      (min 1 ((-21 : ℝ) / (3 * Real.sqrt 65 + 1 / 1000000)))) * 180 / Real.pi := by
  simp only [angleOf, calculate_angle, toR, sampleGood]
  norm_num [sqrt_nine]

theorem angle_sampleGood_bounds :
    135 ≤ angleOf sampleGood ∧ angleOf sampleGood ≤ 165 := by
  rw [angle_sampleGood_eq]
  exact arccos_deg_between sampleGood_quotient_lo sampleGood_quotient_hi

theorem angleCorrect_sampleGood : angleCorrectOf sampleGood = true := by
  have hb := angle_sampleGood_bounds
  simp only [angleCorrectOf, deviationOf, decide_eq_true_eq]
  rw [abs_le]
  exact ⟨by linarith [hb.1], by linarith [hb.2]⟩

theorem hintCfg_not_lower_of_lift_zero (cfg : Config) (st : EngineState)
    (j : JointSample) (hl : (shoulderDataCfg cfg st j).2.2 = 0) :
    hintCfg cfg st j ≠ some Hint.lowerShoulder := by
  unfold hintCfg
  cases hf : cfg.useFeedback
  · simp
  · rw [if_pos rfl, hl]
    have h15 : decide ((0 : ℚ) > 15) = false := by decide
    rw [h15, Bool.and_false]
    intro hcon
    exact hintFor_not_elevated _ _ (Option.some.inj hcon)

end Posture

open Posture

/-- C8: `calculate_angle a b c = calculate_angle c b a` for all inputs —
the angle at the vertex `b` is symmetric in swapping the two endpoints. -/
theorem calculate_angle_symm (a b c : ℝ × ℝ) :
    Posture.calculate_angle a b c = Posture.calculate_angle c b a := by
  unfold Posture.calculate_angle
  rw [mul_comm (Real.sqrt ((a.1 - b.1) ^ 2 + (a.2 - b.2) ^ 2))
    (Real.sqrt ((c.1 - b.1) ^ 2 + (c.2 - b.2) ^ 2))]
  ring_nf

/-- C9: for all inputs, including degenerate ones where a joint pair
coincides, `calculate_angle` is total (the embedding is a function with
no error path) and its value lies in `[0, 180]` degrees. -/
theorem calculate_angle_range (a b c : ℝ × ℝ) :
    0 ≤ Posture.calculate_angle a b c ∧ Posture.calculate_angle a b c ≤ 180 := by
  unfold Posture.calculate_angle
  constructor
  · have h1 := Real.arccos_nonneg (max (-1 : ℝ) (min (1 : ℝ)
      (((a.1 - b.1) * (c.1 - b.1) + (a.2 - b.2) * (c.2 - b.2)) /
        (Real.sqrt ((a.1 - b.1) ^ 2 + (a.2 - b.2) ^ 2) *
          Real.sqrt ((c.1 - b.1) ^ 2 + (c.2 - b.2) ^ 2) + 1e-6))))
    positivity
  · have h2 := Real.arccos_le_pi (max (-1 : ℝ) (min (1 : ℝ)
      (((a.1 - b.1) * (c.1 - b.1) + (a.2 - b.2) * (c.2 - b.2)) /
        (Real.sqrt ((a.1 - b.1) ^ 2 + (a.2 - b.2) ^ 2) *
          Real.sqrt ((c.1 - b.1) ^ 2 + (c.2 - b.2) ^ 2) + 1e-6))))
    have hpi : (0 : ℝ) < Real.pi := Real.pi_pos
    rw [div_le_iff₀ hpi]
    calc Real.arccos _ * 180 ≤ Real.pi * 180 := by
          exact mul_le_mul_of_nonneg_right h2 (by norm_num)
      _ = 180 * Real.pi := by ring

/-- C1: once the shoulder baseline is frozen, it never changes for the
remainder of the session: for any configuration, any session state whose
baseline is set to `b`, and any further sequence of detector results of
any values, the baseline after processing them is still `b`. -/
theorem frozen_baseline_never_changes (cfg : Config) (st : EngineState) (b : ℚ)
    (dets : List (Option JointSample)) :
    (processFrames cfg { st with shoulderBaseline := some b } dets).shoulderBaseline
      = some b :=
  processFrames_keep_baseline cfg b dets _ rfl

/-- C2 counterexample: on a frame with no landmarks, `run_model` appends
no log row (the log length stays 0, not old + 1) and does not advance
the smoothing FIFO, contradicting "holds the last decision, still
advances the FIFOs, and still produces exactly one OutputRecord". -/
theorem no_detection_produces_no_record :
    (processFrame finalConfig initState none).log.length = 0 ∧
    (processFrame finalConfig initState none).statusBuffer.length = 0 ∧
    ¬ ((processFrame finalConfig initState none).log.length
        = initState.log.length + 1) := by
  refine ⟨rfl, rfl, by decide⟩

/-- C2 amended: on a frame with no landmarks the engine skips the whole
analysis block: every FIFO, the baseline and the log are left exactly as
they were, no held decision is fed anywhere, and only the frame counter
advances. -/
theorem no_detection_skips_processing (cfg : Config) (st : EngineState) :
    processFrame cfg st none = { st with frameCount := st.frameCount + 1 } := rfl

/-- C4: the smoothed status is the majority vote `count true > len / 2`
over the at-most-5-slot FIFO; a single `true` pushed into an empty
window yields `true`, any 3-of-5 yields `true`, exactly 2-of-5 yields
`false`, and pushing preserves the capacity bound. -/
theorem smoothed_majority_vote :
    (∀ w : List Bool, smoothedOf w = true ↔ w.count true > w.length / 2) ∧
    (∀ (w : List Bool) (x : Bool), w.length ≤ 5 → (pushFifo 5 w x).length ≤ 5) ∧
    smoothedOf (pushFifo 5 [] true) = true ∧
    (∀ w : List Bool, w.length = 5 → 3 ≤ w.count true → smoothedOf w = true) ∧
    (∀ w : List Bool, w.length = 5 → w.count true = 2 → smoothedOf w = false) := by
  refine ⟨?_, ?_, by decide, ?_, ?_⟩
  · intro w
    simp [smoothedOf]
  · intro w x hw
    unfold pushFifo
    split <;> simp <;> omega
  · intro w h5 h3
    simp only [smoothedOf, decide_eq_true_eq, h5]
    omega
  · intro w h5 h2
    simp [smoothedOf, h5, h2]

/-- C4 witness: the majority vote and capacity facts evaluated on
concrete windows. -/
theorem smoothed_majority_vote_witness :
    smoothedOf [true, false, true, false, true] = true ∧
    smoothedOf [true, true, false, false, false] = false ∧
    (pushFifo 5 [true, true, true, true, true] false).length ≤ 5 :=
  ⟨smoothed_majority_vote.2.2.2.1 _ (by decide) (by decide),
    smoothed_majority_vote.2.2.2.2 _ (by decide) (by decide),
    smoothed_majority_vote.2.1 _ _ (by decide)⟩

/-- C5 (ComboScorer, modelled from the spec): any single non-qualifying
frame resets the scorer to streak 0 with the qualify time cleared,
whatever the prior state; qualification is `angle_correct AND smoothed
AND NOT elevated`; and a continuous qualifying run lasting just over
twice `combo_threshold_seconds` (frames at 0 s, 2.01 s and 4.02 s)
yields a streak count of exactly 2. -/
theorem combo_reset_and_double_streak :
    (∀ (s : ComboState) (now : ℚ),
      comboStep s false now = { streakCount := 0, lastQualifyTime := none }) ∧
    (∀ a sm el : Bool, qualifies a sm el = (a && sm && !el)) ∧
    comboRun { streakCount := 0, lastQualifyTime := none }
        [(true, 0), (true, 201 / 100), (true, 402 / 100)]
      = { streakCount := 2, lastQualifyTime := some (402 / 100) } := by
  refine ⟨fun s now => rfl, fun a sm el => rfl, ?_⟩
  norm_num [comboRun, comboStep, comboThresholdSeconds]

/-- C6: the hint is a fixed priority cascade with first match winning:
a wrong angle gives EXTEND_ARM whatever the other states (in particular
when the shoulder is elevated), then an elevated shoulder gives
LOWER_SHOULDER, then an unstable arm gives STABILIZE_ARM, else
GOOD_POSTURE. -/
theorem hint_priority_cascade :
    (∀ el sm : Bool, hintFor false el sm = Hint.extendArm) ∧
    (∀ sm : Bool, hintFor false true sm = Hint.extendArm) ∧
    (∀ sm : Bool, hintFor true true sm = Hint.lowerShoulder) ∧
    hintFor true false false = Hint.stabilizeArm ∧
    hintFor true false true = Hint.goodPosture :=
  ⟨fun _ _ => rfl, fun _ => rfl, fun _ => rfl, rfl, rfl⟩

/-- C7: per-frame classification: deviation is the absolute difference
between the elbow angle and the reference angle 150, the angle is
correct when the deviation is at most the threshold 15, and the elbow
counts as raised exactly when it is above the shoulder on screen or the
angle is below 90 degrees (either condition alone suffices); the engine
computes exactly this signal. -/
theorem classification_per_frame (j : JointSample) :
    deviationOf j = |angleOf j - 150| ∧
    (angleCorrectOf j = true ↔ deviationOf j ≤ 15) ∧
    (elbowRaisedOf j = true ↔ (j.elbow.2 < j.shoulder.2 ∨ angleOf j < 90)) ∧
    (elbowVisiblyAbove j || decide (angleOf j < 90)) = elbowRaisedOf j := by
  refine ⟨rfl, ?_, ?_, rfl⟩
  · simp [angleCorrectOf]
  · simp [elbowRaisedOf, elbowVisiblyAbove]

/-- C3 counterexample: on the very first frame of a session (shoulder
window holds 1 of 10 samples, baseline unset), the final configuration
already reports GOOD_POSTURE for a sample with a correct elbow angle and
a raised arm — the uncalibrated elevation state is treated exactly like
a confirmed "not elevated", not as a non-qualifying unknown. -/
theorem uncalibrated_reports_good_posture :
    (processFrame finalConfig initState (some sampleGood)).shoulderBaseline = none ∧
    (processFrame finalConfig initState (some sampleGood)).shoulderHeights.length = 1 ∧
    (processFrame finalConfig initState (some sampleGood)).log.map OutputRecord.hint
      = [some Hint.goodPosture] := by
  refine ⟨rfl, rfl, ?_⟩
  have key : hintCfg finalConfig initState sampleGood = some Hint.goodPosture := by
    show some (hintFor (angleCorrectOf sampleGood)
      (true && decide ((0 : ℚ) > 15)) true) = some Hint.goodPosture
    rw [angleCorrect_sampleGood]
    rfl
  exact congrArg (fun h => [h]) key

/-- C3 amended: while the shoulder window has not yet filled, the code
keeps the baseline unset but reports `shoulder_lift = 0` (not an unknown
state), so the hint cascade treats the shoulder as confirmed
not-elevated: the frame still produces a row whose hint is anything but
LOWER_SHOULDER, including GOOD_POSTURE. -/
theorem uncalibrated_lift_is_zero (cfg : Config) (st : EngineState) (j : JointSample)
    (hnf : (pushFifo 10 st.shoulderHeights j.shoulder.2).length ≠ 10) :
    (processFrame cfg st (some j)).shoulderBaseline = st.shoulderBaseline ∧
    (shoulderDataCfg cfg st j).2.2 = 0 ∧
    ∃ row : OutputRecord, (processFrame cfg st (some j)).log = st.log ++ [row] ∧
      row.hint ≠ some Hint.lowerShoulder := by
  have hl : (shoulderDataCfg cfg st j).2.2 = 0 := by
    unfold shoulderDataCfg
    cases hc : cfg.useShoulder
    · simp [hc]
    · simp [hc, baselineStep_not_full _ _ _ hnf]
  have hbase : (shoulderDataCfg cfg st j).2.1 = st.shoulderBaseline := by
    unfold shoulderDataCfg
    cases hc : cfg.useShoulder
    · simp [hc]
    · simp [hc, baselineStep_not_full _ _ _ hnf]
  refine ⟨hbase, hl, rowCfg cfg { st with frameCount := st.frameCount + 1 } j, rfl, ?_⟩
  exact hintCfg_not_lower_of_lift_zero cfg _ j hl

/-- C3 witness: the amended statement at a concrete first frame. -/
theorem uncalibrated_lift_is_zero_witness :
    (processFrame finalConfig initState (some sampleGood)).shoulderBaseline
      = initState.shoulderBaseline ∧
    (shoulderDataCfg finalConfig initState sampleGood).2.2 = 0 ∧
    ∃ row : OutputRecord,
      (processFrame finalConfig initState (some sampleGood)).log
        = initState.log ++ [row] ∧
      row.hint ≠ some Hint.lowerShoulder :=
  uncalibrated_lift_is_zero finalConfig initState sampleGood (by decide)

/-- C10: on the very first frame at which the shoulder window reaches
its 10-sample capacity, the baseline is frozen to that window's average,
the lift computed on the same frame is exactly 0, and the frame's log
row can carry any hint except LOWER_SHOULDER. -/
theorem calibration_frame_zero_lift (cfg : Config) (st : EngineState) (j : JointSample)
    (hb : st.shoulderBaseline = none) (hlen : st.shoulderHeights.length = 9)
    (hsh : cfg.useShoulder = true) :
    (processFrame cfg st (some j)).shoulderBaseline
      = some ((st.shoulderHeights ++ [j.shoulder.2]).sum / 10) ∧
    (shoulderDataCfg cfg st j).2.2 = 0 ∧
    ∃ row : OutputRecord, (processFrame cfg st (some j)).log = st.log ++ [row] ∧
      row.hint ≠ some Hint.lowerShoulder := by
  have hpush : pushFifo 10 st.shoulderHeights j.shoulder.2
      = st.shoulderHeights ++ [j.shoulder.2] := by
    unfold pushFifo
    rw [if_pos (by omega)]
  have hfull : (st.shoulderHeights ++ [j.shoulder.2]).length = 10 := by
    simp [hlen]
  have hstep : baselineStep st.shoulderHeights none j.shoulder.2
      = (st.shoulderHeights ++ [j.shoulder.2],
          some ((st.shoulderHeights ++ [j.shoulder.2]).sum / 10), 0) := by
    unfold baselineStep
    simp [hpush, hfull]
  have hsd : shoulderDataCfg cfg st j
      = (st.shoulderHeights ++ [j.shoulder.2],
          some ((st.shoulderHeights ++ [j.shoulder.2]).sum / 10), 0) := by
    unfold shoulderDataCfg
    rw [hsh, if_pos rfl, hb, hstep]
  have hl : (shoulderDataCfg cfg st j).2.2 = 0 := by rw [hsd]
  refine ⟨?_, hl, rowCfg cfg { st with frameCount := st.frameCount + 1 } j, rfl, ?_⟩
  · have hsd1 : shoulderDataCfg cfg { st with frameCount := st.frameCount + 1 } j
        = (st.shoulderHeights ++ [j.shoulder.2],
            some ((st.shoulderHeights ++ [j.shoulder.2]).sum / 10), 0) := hsd
    show (shoulderDataCfg cfg { st with frameCount := st.frameCount + 1 } j).2.1 = _
    rw [hsd1]
  · exact hintCfg_not_lower_of_lift_zero cfg _ j hl

/-- C10 witness: the calibration frame of a concrete session whose
window holds nine samples. -/
theorem calibration_frame_zero_lift_witness :
    (processFrame finalConfig stNine (some sampleGood)).shoulderBaseline
      = some ((stNine.shoulderHeights ++ [sampleGood.shoulder.2]).sum / 10) ∧
    (shoulderDataCfg finalConfig stNine sampleGood).2.2 = 0 ∧
    ∃ row : OutputRecord,
      (processFrame finalConfig stNine (some sampleGood)).log = stNine.log ++ [row] ∧
      row.hint ≠ some Hint.lowerShoulder :=
  calibration_frame_zero_lift finalConfig stNine sampleGood rfl (by decide) rfl
